import Mathlib

/-!
Verification of the BinExport command-line dispatcher
(`tools/binexport_main.cc`) against its design specification.

The dispatcher scans raw `argv` for the first subcommand token, validates
that a sibling executable `binexport-<name>` exists next to the dispatcher
binary, and spawns it with the remaining arguments, mapping the outcome to
a process exit code.

Platform-dependent collaborators that live outside the dispatcher source
(`readlink`, `FileExists`, `Dirname`, `JoinPath`, `SpawnProcessAndWait`)
are modelled as explicit inputs (an `Env` record) or small definitions
modelled from the specification, as noted in their doc comments.
-/

/-- Byte/character prefix test, the model of `absl::StartsWith(s, p)`. -/
def strStartsWith (s p : String) : Bool :=
  List.isPrefixOf p.data s.data

/-- The help-pattern test from the scan loop of `FindSubCommand`:
`absl::StartsWith(arg, "-help") || absl::StartsWith(arg, "--help")`. -/
def isHelpArg (arg : String) : Bool :=
  strStartsWith arg "-help" || strStartsWith arg "--help"

/-- The scan loop of `FindSubCommand` (`binexport_main.cc` lines 62-72),
one recursive step per iteration of `for (int i = 1; i < argc; ++i)`.
`argc` and `arg_stop` carry the C++ locals; the list argument is the
remaining `argv[i..)`.  A help-pattern token breaks out returning the
current `arg_stop`; a non-dash token with `arg_stop == argc` records `i`
and breaks (hence returns `i`); anything else continues. -/
def findSubCommandAux (argc arg_stop i : Nat) : List String → Nat
  | [] => arg_stop
  | arg :: rest =>
    if isHelpArg arg then arg_stop
    else if arg_stop == argc && !(strStartsWith arg "-") then i
    else findSubCommandAux argc arg_stop (i + 1) rest

/-- `FindSubCommand(argc, argv)`: index of the first non-flag argument, or
`argc` if there is none.  `arg_stop` starts at `argc`, scanning starts at
index 1 (past the program name). -/
def FindSubCommand (argv : List String) : Nat :=
  findSubCommandAux argv.length argv.length 1 (argv.drop 1)

example : FindSubCommand ["prog", "--help"] = 2 := by decide
example : FindSubCommand ["prog", "-a", "-b", "cmd", "-c"] = 3 := by decide
example : FindSubCommand ["prog", "-a", "-x"] = 3 := by decide
example : FindSubCommand ["prog"] = 1 := by decide
example : FindSubCommand ["prog", ""] = 1 := by decide
example : FindSubCommand ["prog", "-helpfoo", "cmd"] = 3 := by decide
example : FindSubCommand ["prog", "cmd", "--help"] = 1 := by decide

/-- Model of `absl::Status`: the distinguished OK value or an error code
with a message.  Only the codes the dispatcher constructs are listed
(`unknown` covers `absl::UnknownError`, used for resolution and spawn
failures). -/
inductive Status where
  | ok
  | invalidArgument (msg : String)
  | notFound (msg : String)
  | unknown (msg : String)
deriving DecidableEq

/-- `status.ok()` of `absl::Status`. -/
def Status.isOk : Status → Bool
  | .ok => true
  | _ => false

/-- `status.message()` of `absl::Status`. -/
def Status.message : Status → String
  | .ok => ""
  | .invalidArgument m => m
  | .notFound m => m
  | .unknown m => m

/-- The runtime environment of one dispatcher invocation: the results of
the platform collaborators that are not part of `binexport_main.cc`.

* `moduleFilename` — outcome of the platform self-path query
  (`readlink("/proc/self/exe")` and friends); `Except.error e` carries the
  OS error text.  The buffer-growth retry loop is not modelled: the loop
  terminates with exactly this outcome.
* `fileExists` — modelled from the spec: `FileExists` from
  `util/filesystem.h` is not in src/; per the spec, it "checks the
  candidate for existence as a regular, executable file".
* `spawnResult` — modelled from the spec: `SpawnProcessAndWait` from
  `util/process.h` is not in src/; per the spec, it returns the child's
  terminal exit status on normal termination and fails (`Except.error`)
  only when the child cannot be started or terminates abnormally. -/
structure Env where
  moduleFilename : Except String String
  fileExists : String → Bool
  spawnResult : List String → Except String Nat

/-- `GetModuleFilename()` (lines 76-121): surfaces the platform self-path
query, wrapping an OS failure as
`absl::UnknownError("Failed to get module path: " ...)`. -/
def GetModuleFilename (env : Env) : Except Status String :=
  match env.moduleFilename with
  | Except.ok path => Except.ok path
  | Except.error os_error =>
      Except.error (Status.unknown ("Failed to get module path: " ++ os_error))

/-- `StatusOr<T>::value_or(default)`. -/
def valueOr (v : Except Status String) (default : String) : String :=
  match v with
  | Except.ok s => s
  | Except.error _ => default

/-- Modelled from the spec: `Dirname` from `util/filesystem.h` is not in
src/; per the spec it "computes the containing directory of self_path" —
everything before the final `/` separator (empty when there is none). -/
def Dirname (path : String) : String :=
  match path.data.reverse.dropWhile (fun c => c ≠ '/') with
  | [] => ""
  | _ :: tl => String.mk tl.reverse

example : Dirname "/usr/bin/binexport" = "/usr/bin" := by decide
example : Dirname "binexport" = "" := by decide

/-- Modelled from the spec: `JoinPath` from `util/filesystem.h` is not in
src/; per the spec the candidate is literally `<directory>/<name>`. -/
def JoinPath (path1 path2 : String) : String :=
  path1 ++ "/" ++ path2

/-- `kBinExportToolPrefix` (line 123), the fixed sibling-executable naming
prelude. -/
def binexportToolPrefixString : String := "binexport-"

/-- The candidate path computed by `ValidateCommand` (lines 126-128):
`JoinPath(Dirname(GetModuleFilename().value_or("")),
StrCat(kBinExportToolPrefix, command))`. -/
def CandidateCommandPath (env : Env) (command : String) : String :=
  JoinPath (Dirname (valueOr (GetModuleFilename env) ""))
    (binexportToolPrefixString ++ command)

/-- The `NotFoundError` text of `ValidateCommand` (lines 132-133). -/
def notFoundMessage (command : String) : String :=
  "'" ++ command ++ "' is not a binexport command. See 'binexport --help'."

/-- `ValidateCommand(command)` (lines 125-134): return the candidate path
when the file-existence check succeeds, else `absl::NotFoundError`. -/
def ValidateCommand (env : Env) (command : String) : Except Status String :=
  let command_exe := CandidateCommandPath env command
  if env.fileExists command_exe then Except.ok command_exe
  else Except.error (Status.notFound (notFoundMessage command))

/-- Observable steps taken by one dispatcher invocation, in order. -/
inductive Event where
  | parseFlags (upto : Nat)
  | resolveSelfPath
  | validate (command : String)
  | stdout (line : String)
  | spawn (args : List String)
deriving DecidableEq

/-- The child argument vector built at lines 153-157: `command_exe`
followed by `argv[command_index + 1 .. argc)` in order. -/
def BuildChildArguments (command_exe : String) (argv : List String)
    (command_index : Nat) : List String :=
  command_exe :: argv.drop (command_index + 1)

/-- `BinExportMain(argc, argv)` (lines 136-160), as the final status plus
the trace of observable steps.  The usage-config installation (external
collaborator) is untraced; `absl::ParseCommandLine(command_index, argv)`
is the `parseFlags` event; the `GetModuleFilename` call inside
`ValidateCommand` is the `resolveSelfPath` event. -/
def BinExportMain (env : Env) (argv : List String) : Status × List Event :=
  let argc := argv.length
  let command_index := FindSubCommand argv
  if command_index = argc then
    (Status.invalidArgument "No command given. Try '--help'.", [])
  else
    let ev := [Event.parseFlags command_index, Event.resolveSelfPath,
               Event.validate (argv.getD command_index "")]
    match ValidateCommand env (argv.getD command_index "") with
    | Except.error st => (st, ev)
    | Except.ok command_exe =>
      let ev := ev ++ [Event.stdout ("found command: " ++ command_exe ++ "\n")]
      let command_args := BuildChildArguments command_exe argv command_index
      match env.spawnResult command_args with
      | Except.error spawn_error =>
          (Status.unknown spawn_error, ev ++ [Event.spawn command_args])
      | Except.ok _exit_code =>
          (Status.ok, ev ++ [Event.spawn command_args])

def EXIT_SUCCESS : Nat := 0

def EXIT_FAILURE : Nat := 1

instance : DecidableEq (Except Status String) := fun a b =>
  match a, b with
  | Except.ok x, Except.ok y =>
      if h : x = y then isTrue (by rw [h]) else isFalse (by simp [h])
  | Except.ok _, Except.error _ => isFalse (by simp)
  | Except.error _, Except.ok _ => isFalse (by simp)
  | Except.error x, Except.error y =>
      if h : x = y then isTrue (by rw [h]) else isFalse (by simp [h])

/-- Outcome of the whole process: exit code, stderr lines written by
`main`, and the dispatcher's event trace. -/
structure MainOutcome where
  exitCode : Nat
  stderrLines : List String
  events : List Event
deriving DecidableEq

/-- `main(argc, argv)` (lines 165-172): on a non-OK status print
`ERROR: <message>` to stderr and return `EXIT_FAILURE`, else
`EXIT_SUCCESS`.  (Named `mainEntry` because Lean reserves `main`.) -/
def mainEntry (env : Env) (argv : List String) : MainOutcome :=
  match BinExportMain env argv with
  | (st, events) =>
    if st.isOk then ⟨EXIT_SUCCESS, [], events⟩
    else ⟨EXIT_FAILURE, ["ERROR: " ++ st.message ++ "\n"], events⟩

/-- The stdout lines among a trace's events. -/
def stdoutOf (events : List Event) : List String :=
  events.filterMap fun e =>
    match e with
    | Event.stdout s => some s
    | _ => none

/-- Does `pat` occur as a contiguous run inside `l`? -/
def listContains (pat : List Char) : List Char → Bool
  | [] => List.isPrefixOf pat []
  | c :: cs => List.isPrefixOf pat (c :: cs) || listContains pat cs

/-- Substring test (for "stderr contains ..."). -/
def strContains (s pat : String) : Bool :=
  listContains pat.data s.data

example : strContains "ERROR: No command given. Try '--help'.\n" "No command given" = true := by decide

/-- Environment of a healthy installation: self-path resolves to
`/usr/bin/binexport`, every candidate file exists, every spawned child
terminates normally with status 7. -/
def envChildExits7 : Env where
  moduleFilename := Except.ok "/usr/bin/binexport"
  fileExists := fun _ => true
  spawnResult := fun _ => Except.ok 7

/-- Environment in which self-path resolution fails at the OS level while
every candidate file exists and children exit 0. -/
def envResolutionFails : Env where
  moduleFilename := Except.error "readlink failed"
  fileExists := fun _ => true
  spawnResult := fun _ => Except.ok 0

/-- Environment in which validation succeeds but the spawn step fails. -/
def envSpawnFails : Env where
  moduleFilename := Except.ok "/usr/bin/binexport"
  fileExists := fun _ => true
  spawnResult := fun _ => Except.error "cannot execute"

/-- Environment in which only `/usr/bin/binexport-foo` exists. -/
def envOnlyFoo : Env where
  moduleFilename := Except.ok "/usr/bin/binexport"
  fileExists := fun p => p == "/usr/bin/binexport-foo"
  spawnResult := fun _ => Except.ok 0

example : (mainEntry envChildExits7 ["binexport", "dummy"]).exitCode = 0 := by decide
example : (mainEntry envResolutionFails ["binexport", "dummy"]).exitCode = 0 := by decide
example : ValidateCommand envOnlyFoo "foo" = Except.ok "/usr/bin/binexport-foo" := by decide
example : (mainEntry envSpawnFails ["binexport", "dummy"]).stderrLines = ["ERROR: cannot execute\n"] := by decide
example : stdoutOf (mainEntry envSpawnFails ["binexport", "dummy"]).events = ["found command: /usr/bin/binexport-dummy\n"] := by decide

/-! ### Lemmas about the scan loop -/

/-- Scanning a run of dash-prefixed, non-help tokens neither stops nor
changes `arg_stop`. -/
theorem findSubCommandAux_dashRun (argc arg_stop i : Nat) (pre : List String)
    (hpre : ∀ a ∈ pre, strStartsWith a "-" = true ∧ isHelpArg a = false)
    (tail : List String) :
    findSubCommandAux argc arg_stop i (pre ++ tail)
      = findSubCommandAux argc arg_stop (i + pre.length) tail := by
  induction pre generalizing i with
  | nil => simp
  | cons a pre ih =>
    obtain ⟨hdash, hhelp⟩ := hpre a (by simp)
    have hrest : ∀ b ∈ pre, strStartsWith b "-" = true ∧ isHelpArg b = false :=
      fun b hb => hpre b (by simp [hb])
    calc findSubCommandAux argc arg_stop i (a :: pre ++ tail)
        = findSubCommandAux argc arg_stop (i + 1) (pre ++ tail) := by
          simp [findSubCommandAux, hdash, hhelp]
      _ = findSubCommandAux argc arg_stop (i + 1 + pre.length) tail := ih _ hrest
      _ = findSubCommandAux argc arg_stop (i + (a :: pre).length) tail := by
          have hidx : i + (a :: pre).length = i + 1 + pre.length := by
            simp only [List.length_cons]; omega
          rw [hidx]

/-- A help-pattern token stops the scan, returning the current
`arg_stop`. -/
theorem findSubCommandAux_helpStop (argc arg_stop i : Nat) (h : String)
    (hh : isHelpArg h = true) (rest : List String) :
    findSubCommandAux argc arg_stop i (h :: rest) = arg_stop := by
  simp [findSubCommandAux, hh]

/-- A token that does not begin with a dash cannot match the help
pattern. -/
theorem notDash_notHelp (s : String) (hs : strStartsWith s "-" = false) :
    isHelpArg s = false := by
  unfold isHelpArg strStartsWith at *
  have h1 : ("-" : String).data = ['-'] := by decide
  have h2 : ("-help" : String).data = ['-', 'h', 'e', 'l', 'p'] := by decide
  have h3 : ("--help" : String).data = ['-', '-', 'h', 'e', 'l', 'p'] := by decide
  rw [h1] at hs
  rw [h2, h3]
  cases hd : s.data with
  | nil => simp [List.isPrefixOf]
  | cons c cs =>
    rw [hd] at hs
    have hc : ('-' == c) = false := by
      simpa [List.isPrefixOf] using hs
    simp [List.isPrefixOf, hc]

/-- With `arg_stop` still at `argc`, a bare (non-dash) token stops the
scan, returning its index. -/
theorem findSubCommandAux_bareStop (argc i : Nat) (b : String)
    (hb : strStartsWith b "-" = false) (rest : List String) :
    findSubCommandAux argc argc i (b :: rest) = i := by
  simp [findSubCommandAux, notDash_notHelp b hb, hb]

/-- A scan that runs off the end returns `arg_stop`. -/
theorem findSubCommandAux_nil (argc arg_stop i : Nat) :
    findSubCommandAux argc arg_stop i [] = arg_stop := rfl

/-- A scan over tokens that all begin with a dash returns `arg_stop`
unchanged, wherever it starts. -/
theorem findSubCommandAux_allDash (argc arg_stop : Nat) (args : List String)
    (h : ∀ a ∈ args, strStartsWith a "-" = true) :
    ∀ i, findSubCommandAux argc arg_stop i args = arg_stop := by
  induction args with
  | nil => intro i; rfl
  | cons a rest ih =>
    intro i
    have hdash := h a (by simp)
    by_cases hh : isHelpArg a = true
    · simp [findSubCommandAux, hh]
    · have hh' : isHelpArg a = false := by
        cases hv : isHelpArg a
        · rfl
        · exact absurd hv hh
      simp only [findSubCommandAux, hh', hdash, Bool.not_true,
        Bool.and_false, if_false, Bool.false_eq_true]
      exact ih (fun b hb => h b (by simp [hb])) (i + 1)

/-- `(l.drop n).get? j = l.get? (n + j)`. -/
theorem get?_drop_add (l : List String) (n j : Nat) :
    (l.drop n).get? j = l.get? (n + j) := by
  induction l generalizing n with
  | nil => simp
  | cons a t ih =>
    cases n with
    | zero => simp
    | succ m =>
      show (t.drop m).get? j = (a :: t).get? (m + 1 + j)
      rw [ih m]
      have hidx : m + 1 + j = (m + j) + 1 := by omega
      rw [hidx]
      rfl

/-- The element sitting right after a run: `(pre ++ x :: rest)[pre.length]`. -/
theorem getD_after_run (pre : List String) (x : String) (rest : List String) :
    (pre ++ x :: rest).getD pre.length "" = x := by
  induction pre with
  | nil => rfl
  | cons a l ih => simpa using ih

/-! ### C1, C5, C8: the argument splitter -/

/-- C1 counterexample: for `[prog, --help]` the scan returns 2 (= argc),
not 1 as the claim states — the help branch breaks out of the loop
without recording the current index into `arg_stop`. -/
theorem claim_C1_counterexample :
    ¬(FindSubCommand ["prog", "--help"] = 1)
    ∧ FindSubCommand ["prog", "--help"] = 2 := by decide

/-- C1 (amended): for `[prog, --help]`, `FindSubCommand` returns 2, the
length of the sequence; in general, when the scan reaches a help-pattern
token (after any run of dash-prefixed non-help tokens), scanning stops and
`arg_stop` — still `argc`, because recording a bare token always ends the
scan at once — is returned, not the index of the help token. -/
theorem claim_C1_amended (prog tok : String) (pre rest : List String)
    (hpre : ∀ a ∈ pre, strStartsWith a "-" = true ∧ isHelpArg a = false)
    (htok : isHelpArg tok = true) :
    FindSubCommand (prog :: pre ++ tok :: rest)
      = (prog :: pre ++ tok :: rest).length
    ∧ FindSubCommand ["prog", "--help"] = 2 := by
  constructor
  · show findSubCommandAux (prog :: pre ++ tok :: rest).length
      (prog :: pre ++ tok :: rest).length 1 (pre ++ tok :: rest)
      = (prog :: pre ++ tok :: rest).length
    rw [findSubCommandAux_dashRun _ _ _ pre hpre (tok :: rest)]
    exact findSubCommandAux_helpStop _ _ _ tok htok rest
  · decide

/-- C1 witness: the amended statement at `[prog, --help]` itself. -/
theorem claim_C1_witness :
    FindSubCommand ["prog", "--help"] = (["prog", "--help"] : List String).length
    ∧ FindSubCommand ["prog", "--help"] = 2 :=
  claim_C1_amended "prog" "--help" [] [] (by decide) (by decide)

/-- C5 counterexample: for `[prog, -a, -b, cmd, -c]` the scan returns 3
(the index of `cmd`), not 2 as the spec's example value states. -/
theorem claim_C5_counterexample :
    ¬(FindSubCommand ["prog", "-a", "-b", "cmd", "-c"] = 2)
    ∧ FindSubCommand ["prog", "-a", "-b", "cmd", "-c"] = 3 := by decide

/-- C5 (amended): for `[prog, f1, f2, cmd, c]` with `f1`, `f2`
dash-prefixed non-help tokens and `cmd` bare, `FindSubCommand` returns the
index of `cmd`, which is 3 (counting the program name as index 0), not
2. -/
theorem claim_C5_amended (prog f1 f2 cmd c : String)
    (hf1 : strStartsWith f1 "-" = true) (hf1h : isHelpArg f1 = false)
    (hf2 : strStartsWith f2 "-" = true) (hf2h : isHelpArg f2 = false)
    (hcmd : strStartsWith cmd "-" = false) :
    FindSubCommand [prog, f1, f2, cmd, c] = 3
    ∧ [prog, f1, f2, cmd, c].getD 3 "" = cmd := by
  constructor
  · have hp : ∀ a ∈ [f1, f2], strStartsWith a "-" = true ∧ isHelpArg a = false := by
      intro a ha
      rcases List.mem_pair.mp ha with rfl | rfl
      · exact ⟨hf1, hf1h⟩
      · exact ⟨hf2, hf2h⟩
    show findSubCommandAux 5 5 1 ([f1, f2] ++ cmd :: [c]) = 3
    rw [findSubCommandAux_dashRun 5 5 1 [f1, f2] hp (cmd :: [c])]
    exact findSubCommandAux_bareStop 5 3 cmd hcmd [c]
  · rfl

/-- C5 witness: the amended statement at the spec's own example. -/
theorem claim_C5_witness :
    FindSubCommand ["prog", "-a", "-b", "cmd", "-c"] = 3
    ∧ ["prog", "-a", "-b", "cmd", "-c"].getD 3 "" = "cmd" :=
  claim_C5_amended "prog" "-a" "-b" "cmd" "-c"
    (by decide) (by decide) (by decide) (by decide) (by decide)

/-- C8: for every argument sequence in which every token after position
zero begins with a dash, `FindSubCommand` returns the sequence length. -/
theorem claim_C8 (argv : List String)
    (h : ∀ a ∈ argv.drop 1, strStartsWith a "-" = true) :
    FindSubCommand argv = argv.length :=
  findSubCommandAux_allDash argv.length argv.length (argv.drop 1) h 1

/-- C8 witness: a sequence of dash tokens (one of them a help token). -/
theorem claim_C8_witness :
    FindSubCommand ["binexport", "-a", "--help", "-b"] = 4 :=
  claim_C8 ["binexport", "-a", "--help", "-b"] (by decide)

/-! ### Substring lemmas for the error-message claims -/

/-- A list is a prefix of itself followed by anything. -/
theorem isPrefixOf_self_append (pat b : List Char) :
    List.isPrefixOf pat (pat ++ b) = true := by
  induction pat with
  | nil =>
    show List.isPrefixOf [] b = true
    cases b <;> rfl
  | cons c cs ih => simp [List.isPrefixOf, ih]

/-- A pattern occurs at the front of itself followed by anything. -/
theorem listContains_self_append (pat b : List Char) :
    listContains pat (pat ++ b) = true := by
  cases pat with
  | nil =>
    cases b with
    | nil => rfl
    | cons c cs => simp [listContains, List.isPrefixOf]
  | cons c cs =>
    simp [listContains, isPrefixOf_self_append]

/-- Occurrence is preserved by prepending. -/
theorem listContains_append_left (pat a b : List Char)
    (h : listContains pat b = true) :
    listContains pat (a ++ b) = true := by
  induction a with
  | nil => simpa
  | cons c cs ih => simp [listContains, ih]

/-- The not-found message always mentions the rejected command name. -/
theorem notFoundMessage_mentions_command (command : String) :
    strContains (notFoundMessage command) command = true := by
  unfold strContains notFoundMessage
  have hdata : ("'" ++ command
      ++ "' is not a binexport command. See 'binexport --help'.").data
      = ("'" : String).data ++ (command.data
        ++ ("' is not a binexport command. See 'binexport --help'." : String).data) := by
    simp [String.data_append]
  rw [hdata]
  exact listContains_append_left _ _ _ (listContains_self_append _ _)

/-- The not-found message always suggests the `--help` flag. -/
theorem notFoundMessage_mentions_help (command : String) :
    strContains (notFoundMessage command) "--help" = true := by
  unfold strContains notFoundMessage
  have hdata : ("'" ++ command
      ++ "' is not a binexport command. See 'binexport --help'.").data
      = (("'" : String).data ++ command.data)
        ++ ("' is not a binexport command. See 'binexport --help'." : String).data := by
    simp [String.data_append]
  rw [hdata]
  exact listContains_append_left _ _ _ (by decide)

/-! ### C4: command validation -/

/-- C4: when self-path resolution succeeds with `self`, `ValidateCommand`
returns the candidate `Dirname(self)/binexport-<name>` exactly when the
(spec-modelled) file-existence check accepts that candidate; otherwise it
fails with a `NotFoundError` whose message mentions the rejected name and
suggests `--help`. -/
theorem claim_C4 (env : Env) (name self : String)
    (hres : env.moduleFilename = Except.ok self) :
    (ValidateCommand env name
        = Except.ok (JoinPath (Dirname self) (binexportToolPrefixString ++ name))
      ↔ env.fileExists
          (JoinPath (Dirname self) (binexportToolPrefixString ++ name)) = true)
    ∧ (env.fileExists
          (JoinPath (Dirname self) (binexportToolPrefixString ++ name)) = false
        → ValidateCommand env name
            = Except.error (Status.notFound (notFoundMessage name)))
    ∧ strContains (notFoundMessage name) name = true
    ∧ strContains (notFoundMessage name) "--help" = true := by
  have hcand : CandidateCommandPath env name
      = JoinPath (Dirname self) (binexportToolPrefixString ++ name) := by
    unfold CandidateCommandPath GetModuleFilename valueOr
    rw [hres]
  refine ⟨?_, ?_, notFoundMessage_mentions_command name,
    notFoundMessage_mentions_help name⟩
  · cases hex : env.fileExists
        (JoinPath (Dirname self) (binexportToolPrefixString ++ name)) with
    | true => simp [ValidateCommand, hcand, hex]
    | false => simp [ValidateCommand, hcand, hex]
  · intro hex
    simp [ValidateCommand, hcand, hex]

/-- C4 witness: in `envOnlyFoo` exactly `/usr/bin/binexport-foo` exists,
and validation of `"foo"` returns it. -/
theorem claim_C4_witness :
    ValidateCommand envOnlyFoo "foo" = Except.ok "/usr/bin/binexport-foo"
    ∧ strContains (notFoundMessage "foo") "foo" = true :=
  ⟨((claim_C4 envOnlyFoo "foo" "/usr/bin/binexport" rfl).1).mpr (by decide),
   (claim_C4 envOnlyFoo "foo" "/usr/bin/binexport" rfl).2.2.1⟩

/-! ### C10: the empty string as a subcommand token -/

/-- C10: an empty-string argument counts as a bare token: after a run of
dash-prefixed non-help tokens, `""` stops the scan at its own index, the
empty string becomes the subcommand name, and validation looks up the
candidate `<directory>/binexport-` (the fixed tool prelude with an empty
name appended). -/
theorem claim_C10 (env : Env) (prog : String) (pre rest : List String)
    (hpre : ∀ a ∈ pre, strStartsWith a "-" = true ∧ isHelpArg a = false) :
    FindSubCommand (prog :: pre ++ "" :: rest) = 1 + pre.length
    ∧ (prog :: pre ++ "" :: rest).getD (1 + pre.length) "" = ""
    ∧ CandidateCommandPath env ""
        = JoinPath (Dirname (valueOr (GetModuleFilename env) "")) "binexport-"
    ∧ (env.fileExists (CandidateCommandPath env "") = true
        → ValidateCommand env "" = Except.ok (CandidateCommandPath env "")) := by
  refine ⟨?_, ?_, ?_, ?_⟩
  · show findSubCommandAux (prog :: pre ++ "" :: rest).length
      (prog :: pre ++ "" :: rest).length 1 (pre ++ "" :: rest)
      = 1 + pre.length
    rw [findSubCommandAux_dashRun _ _ _ pre hpre ("" :: rest)]
    exact findSubCommandAux_bareStop _ _ "" (by decide) rest
  · rw [Nat.add_comm 1 pre.length]
    show (pre ++ "" :: rest).getD pre.length "" = ""
    exact getD_after_run pre "" rest
  · have hb : binexportToolPrefixString ++ "" = "binexport-" := by decide
    unfold CandidateCommandPath
    rw [hb]
  · intro hex
    simp [ValidateCommand, hex]

/-- C10 witness: `[binexport, -v, ""]` in a healthy installation. -/
theorem claim_C10_witness :
    FindSubCommand ["binexport", "-v", ""] = 1 + (["-v"] : List String).length
    ∧ CandidateCommandPath envChildExits7 ""
        = JoinPath (Dirname (valueOr (GetModuleFilename envChildExits7) ""))
            "binexport-"
    ∧ ValidateCommand envChildExits7 ""
        = Except.ok (CandidateCommandPath envChildExits7 "") := by
  obtain ⟨h1, _h2, h3, h4⟩ :=
    claim_C10 envChildExits7 "binexport" ["-v"] [] (by decide)
  exact ⟨h1, h3, h4 (by decide)⟩

/-! ### C2: the child's exit status is not forwarded -/

/-- C2 counterexample: in `envChildExits7` the child spawns and terminates
normally with status 7, yet the dispatcher's own exit code is 0, not 7 —
`BinExportMain` keeps only `SpawnProcessAndWait(...).status()` and drops
the returned exit-status value. -/
theorem claim_C2_counterexample :
    envChildExits7.spawnResult
        (BuildChildArguments "/usr/bin/binexport-dummy" ["binexport", "dummy"] 1)
      = Except.ok 7
    ∧ (mainEntry envChildExits7 ["binexport", "dummy"]).exitCode = 0
    ∧ ¬((mainEntry envChildExits7 ["binexport", "dummy"]).exitCode = 7) :=
  ⟨rfl, by decide, by decide⟩

/-- C2 (amended): whenever the subcommand is located, spawned, and the
child terminates normally — with any exit status `s` — the dispatcher
exits with `EXIT_SUCCESS` (0); the child's exit status value is discarded,
not forwarded. -/
theorem claim_C2_amended (env : Env) (argv : List String) (exe : String) (s : Nat)
    (hci : ¬(FindSubCommand argv = argv.length))
    (hval : ValidateCommand env (argv.getD (FindSubCommand argv) "")
        = Except.ok exe)
    (hspawn : env.spawnResult (BuildChildArguments exe argv (FindSubCommand argv))
        = Except.ok s) :
    (mainEntry env argv).exitCode = EXIT_SUCCESS := by
  simp only [mainEntry, BinExportMain]
  rw [if_neg hci, hval]
  simp [hspawn, Status.isOk]

/-- C2 witness: the amended statement where the child exits with status
7. -/
theorem claim_C2_witness :
    (mainEntry envChildExits7 ["binexport", "dummy"]).exitCode = EXIT_SUCCESS :=
  claim_C2_amended envChildExits7 ["binexport", "dummy"]
    "/usr/bin/binexport-dummy" 7 (by decide) (by decide) rfl

/-! ### C3: resolution errors are swallowed, not surfaced -/

/-- C3 counterexample: in `envResolutionFails` the self-path query reports
an OS error, yet the run validates against a substitute (empty) directory,
succeeds, exits 0, and writes no ERROR line at all. -/
theorem claim_C3_counterexample :
    envResolutionFails.moduleFilename = Except.error "readlink failed"
    ∧ (mainEntry envResolutionFails ["binexport", "dummy"]).exitCode = 0
    ∧ (mainEntry envResolutionFails ["binexport", "dummy"]).stderrLines = [] :=
  ⟨rfl, by decide, by decide⟩

/-- C3 (amended): when self-path resolution reports an error,
`ValidateCommand` swallows it via `value_or("")`: it behaves exactly as if
the resolved path were the empty string, proceeding with the substitute
directory, and never returns the resolution (`unknown`) error. -/
theorem claim_C3_amended (env : Env) (name oserr : String)
    (hres : env.moduleFilename = Except.error oserr) :
    ValidateCommand env name
      = ValidateCommand { env with moduleFilename := Except.ok "" } name
    ∧ ∀ m, ¬(ValidateCommand env name = Except.error (Status.unknown m)) := by
  have hcand : CandidateCommandPath env name
      = CandidateCommandPath { env with moduleFilename := Except.ok "" } name := by
    unfold CandidateCommandPath GetModuleFilename valueOr
    rw [hres]
  constructor
  · unfold ValidateCommand
    rw [hcand]
  · intro m
    cases hex : env.fileExists (CandidateCommandPath env name) with
    | true => simp [ValidateCommand, hex]
    | false => simp [ValidateCommand, hex]

/-- C3 witness: the amended statement in `envResolutionFails`. -/
theorem claim_C3_witness :
    ValidateCommand envResolutionFails "dummy"
      = ValidateCommand
          { envResolutionFails with moduleFilename := Except.ok "" } "dummy"
    ∧ ¬(ValidateCommand envResolutionFails "dummy"
        = Except.error (Status.unknown "boom")) :=
  ⟨(claim_C3_amended envResolutionFails "dummy" "readlink failed" rfl).1,
   (claim_C3_amended envResolutionFails "dummy" "readlink failed" rfl).2 "boom"⟩

/-! ### C6: failure output -/

/-- C6 counterexample: a spawn-step failure is a dispatcher-level failure,
yet the dispatcher has already printed a `found command:` line to stdout —
the failing run's output is not just the single ERROR line. -/
theorem claim_C6_counterexample :
    ¬((mainEntry envSpawnFails ["binexport", "dummy"]).exitCode = 0)
    ∧ (mainEntry envSpawnFails ["binexport", "dummy"]).stderrLines
        = ["ERROR: cannot execute\n"]
    ∧ stdoutOf (mainEntry envSpawnFails ["binexport", "dummy"]).events
        = ["found command: /usr/bin/binexport-dummy\n"] :=
  ⟨by decide, by decide, by decide⟩

/-- C6 (amended): on every dispatcher-level failure, stderr is exactly the
single line `ERROR: <message>` and the exit code is `EXIT_FAILURE`;
failures before validation succeeds produce no stdout, but when the spawn
step fails after a successful validation, a `found command: <path>` stdout
line has already been printed. -/
theorem claim_C6_amended (env : Env) (argv : List String)
    (hfail : ((BinExportMain env argv).1).isOk = false) :
    (mainEntry env argv).exitCode = EXIT_FAILURE
    ∧ (mainEntry env argv).stderrLines
        = ["ERROR: " ++ ((BinExportMain env argv).1).message ++ "\n"]
    ∧ (stdoutOf (mainEntry env argv).events = []
       ∨ ∃ exe, ValidateCommand env (argv.getD (FindSubCommand argv) "")
             = Except.ok exe
           ∧ stdoutOf (mainEntry env argv).events
               = ["found command: " ++ exe ++ "\n"]) := by
  have hm : mainEntry env argv
      = if ((BinExportMain env argv).1).isOk
        then ⟨EXIT_SUCCESS, [], (BinExportMain env argv).2⟩
        else ⟨EXIT_FAILURE,
          ["ERROR: " ++ ((BinExportMain env argv).1).message ++ "\n"],
          (BinExportMain env argv).2⟩ := rfl
  refine ⟨by rw [hm, hfail]; rfl, by rw [hm, hfail]; rfl, ?_⟩
  have hev : (mainEntry env argv).events = (BinExportMain env argv).2 := by
    rw [hm, hfail]
    rfl
  rw [hev]
  by_cases hci : FindSubCommand argv = argv.length
  · left
    have hb : (BinExportMain env argv).2 = [] := by
      simp [BinExportMain, hci]
    rw [hb]
    rfl
  · cases hval : ValidateCommand env (argv.getD (FindSubCommand argv) "") with
    | error st =>
      left
      have hb : (BinExportMain env argv).2
          = [Event.parseFlags (FindSubCommand argv), Event.resolveSelfPath,
             Event.validate (argv.getD (FindSubCommand argv) "")] := by
        simp only [BinExportMain]
        rw [if_neg hci, hval]
      rw [hb]
      rfl

    | ok exe =>
      right
      refine ⟨exe, rfl, ?_⟩
      cases hspawn : env.spawnResult
          (BuildChildArguments exe argv (FindSubCommand argv)) with
      | error msg =>
        have hb : (BinExportMain env argv).2
            = [Event.parseFlags (FindSubCommand argv), Event.resolveSelfPath,
               Event.validate (argv.getD (FindSubCommand argv) ""),
               Event.stdout ("found command: " ++ exe ++ "\n"),
               Event.spawn (BuildChildArguments exe argv (FindSubCommand argv))] := by
          simp only [BinExportMain]
          rw [if_neg hci, hval]
          simp [hspawn]
        rw [hb]
        rfl
      | ok code =>
        have hb : (BinExportMain env argv).2
            = [Event.parseFlags (FindSubCommand argv), Event.resolveSelfPath,
               Event.validate (argv.getD (FindSubCommand argv) ""),
               Event.stdout ("found command: " ++ exe ++ "\n"),
               Event.spawn (BuildChildArguments exe argv (FindSubCommand argv))] := by
          simp only [BinExportMain]
          rw [if_neg hci, hval]
          simp [hspawn]
        rw [hb]
        rfl

/-- C6 witness: an unknown-subcommand failure in `envOnlyFoo`. -/
theorem claim_C6_witness :
    (mainEntry envOnlyFoo ["binexport", "nosuch"]).exitCode = EXIT_FAILURE
    ∧ (mainEntry envOnlyFoo ["binexport", "nosuch"]).stderrLines
        = ["ERROR: "
            ++ ((BinExportMain envOnlyFoo ["binexport", "nosuch"]).1).message
            ++ "\n"] :=
  ⟨(claim_C6_amended envOnlyFoo ["binexport", "nosuch"] (by decide)).1,
   (claim_C6_amended envOnlyFoo ["binexport", "nosuch"] (by decide)).2.1⟩

/-! ### C7: no command given -/

/-- C7: whenever the split point equals the argument count, the dispatcher
fails with `InvalidArgumentError` and an empty event trace — no flag
parsing, resolution, validation or spawn — exits `EXIT_FAILURE` (non-zero)
and writes a stderr line containing `No command given`. -/
theorem claim_C7 (env : Env) (argv : List String)
    (h : FindSubCommand argv = argv.length) :
    BinExportMain env argv
      = (Status.invalidArgument "No command given. Try '--help'.", [])
    ∧ (mainEntry env argv).exitCode = EXIT_FAILURE
    ∧ ¬(EXIT_FAILURE = 0)
    ∧ (mainEntry env argv).stderrLines
        = ["ERROR: No command given. Try '--help'.\n"]
    ∧ strContains "ERROR: No command given. Try '--help'.\n" "No command given"
        = true
    ∧ (mainEntry env argv).events = [] := by
  have hb : BinExportMain env argv
      = (Status.invalidArgument "No command given. Try '--help'.", []) := by
    simp [BinExportMain, h]
  refine ⟨hb, ?_, by decide, ?_, by decide, ?_⟩
  · simp [mainEntry, hb, Status.isOk]
  · simp [mainEntry, hb, Status.isOk, Status.message]
  · simp [mainEntry, hb, Status.isOk]

/-- C7 witness: invoking with no arguments beyond the program name. -/
theorem claim_C7_witness :
    (mainEntry envChildExits7 ["binexport"]).exitCode = EXIT_FAILURE
    ∧ (mainEntry envChildExits7 ["binexport"]).stderrLines
        = ["ERROR: No command given. Try '--help'.\n"]
    ∧ (mainEntry envChildExits7 ["binexport"]).events = [] :=
  ⟨(claim_C7 envChildExits7 ["binexport"] (by decide)).2.1,
   (claim_C7 envChildExits7 ["binexport"] (by decide)).2.2.2.1,
   (claim_C7 envChildExits7 ["binexport"] (by decide)).2.2.2.2.2⟩

/-! ### C9: the child argument vector -/

/-- C9: the child argument vector has the resolved executable at element
zero, its length is one plus the tail's length, and every later element is
exactly the raw token at the corresponding position after the split point,
in order. -/
theorem claim_C9 (exe : String) (argv : List String) (ci : Nat) :
    (BuildChildArguments exe argv ci).get? 0 = some exe
    ∧ (BuildChildArguments exe argv ci).length
        = 1 + (argv.length - (ci + 1))
    ∧ ∀ j, (BuildChildArguments exe argv ci).get? (j + 1)
        = argv.get? (ci + 1 + j) := by
  refine ⟨rfl, ?_, ?_⟩
  · simp [BuildChildArguments]
    omega
  · intro j
    show (argv.drop (ci + 1)).get? j = argv.get? (ci + 1 + j)
    exact get?_drop_add argv (ci + 1) j

/-- C9 witness: the theorem applied to a concrete split. -/
theorem claim_C9_witness :
    (BuildChildArguments "/usr/bin/binexport-dummy"
        ["binexport", "dummy", "a", "b"] 1).get? 0
      = some "/usr/bin/binexport-dummy"
    ∧ (BuildChildArguments "/usr/bin/binexport-dummy"
        ["binexport", "dummy", "a", "b"] 1).get? (0 + 1)
      = ["binexport", "dummy", "a", "b"].get? (1 + 1 + 0) :=
  ⟨(claim_C9 "/usr/bin/binexport-dummy" ["binexport", "dummy", "a", "b"] 1).1,
   (claim_C9 "/usr/bin/binexport-dummy" ["binexport", "dummy", "a", "b"] 1).2.2 0⟩
